import Mathlib

/-!
Shallow embedding of `run.py` (GMaps_locations_to_GeoJSON): a batch tool that
reads rows from a CSV, enriches each row via a two-step Places lookup
(Find Place from Text, then Place Details) under a global request budget, and
writes a GeoJSON FeatureCollection.

Parsed JSON values are modelled by the inductive `Json`; Python truthiness,
`dict.get`, and `x or y` are modelled explicitly.  The external HTTP API is a
parameter (`PlacesApi`): a function from request parameters to the parsed JSON
response body.  Effectful steps of `main` (file dialogs, reading the API key,
issuing requests, writing the output file) are modelled as an event trace.
-/

namespace GMapsGeo

/-- A parsed JSON value, as produced by `response.json()` / `json.loads`.
Numbers are modelled as rationals (they are only carried around, never
computed with). -/
inductive Json where
  | null
  | bool (b : Bool)
  | num (q : Rat)
  | str (s : String)
  | arr (elems : List Json)
  | obj (fields : List (String × Json))

/-- Python truthiness of a JSON value (`bool(x)` for the corresponding
Python value: `None`, `False`, `0`, `""`, `[]`, `{}` are falsy). -/
def truthy : Json → Bool
  | .null => false
  | .bool b => b
  | .num q => q != 0
  | .str s => s != ""
  | .arr xs => !xs.isEmpty
  | .obj fs => !fs.isEmpty

/-- Model of `d.get(k)` on a parsed JSON object: `none` when the value is not a dict
or the key is absent. -/
def jget (j : Json) (k : String) : Option Json :=
  match j with
  | .obj fs => (fs.find? (fun p => p.1 == k)).map (fun p => p.2)
  | _ => none

/-- Truthiness of a `dict.get` result (`None` for a missing key is falsy). -/
def truthyOpt : Option Json → Bool
  | some j => truthy j
  | none => false

/-- Python `x or d` where `x` is a `dict.get` result and `d` a JSON value. -/
def pyOrJ (v : Option Json) (d : Json) : Json :=
  match v with
  | some j => if truthy j then j else d
  | none => d

/-- Does `v == s` hold in Python, for `v` a JSON value and `s` a string?
(Only the equal string compares equal.) -/
def isStrVal (v : Option Json) (s : String) : Bool :=
  match v with
  | some (.str t) => t == s
  | _ => false

/-- Is this `dict.get` result Python `None`?  Both a missing key and an
explicit JSON `null` parse to `None`. -/
def isNoneLike : Option Json → Bool
  | none => true
  | some .null => true
  | some _ => false

/-- Python `k in d` for a parsed JSON object `d` (key membership). -/
def jHasKey (j : Json) (k : String) : Bool :=
  match j with
  | .obj fs => fs.any (fun p => p.1 == k)
  | _ => false

/-- Test `k in d` applied to a `dict.get` result (never reached on `None` thanks
to short-circuiting in the source). -/
def jHasKeyOpt (v : Option Json) (k : String) : Bool :=
  match v with
  | some j => jHasKey j k
  | none => false

/-- Follow a path of keys through nested JSON objects. -/
def jpath (j : Json) : List String → Option Json
  | [] => some j
  | k :: ks =>
    match jget j k with
    | some v => jpath v ks
    | none => none

/-- Python `"country" in types` for a parsed JSON list `types` (membership of
the string among the elements; non-string elements never compare equal). -/
def jContainsStr (v : Json) (s : String) : Bool :=
  match v with
  | .arr xs => xs.any (fun j => match j with | .str t => t == s | _ => false)
  | _ => false

/-- Is the first list a prefix of the second?  (Boolean, structural.) -/
def isPrefixChars : List Char → List Char → Bool
  | [], _ => true
  | _ :: _, [] => false
  | a :: as, b :: bs => a == b && isPrefixChars as bs

/-- Worker for Python `s.split(sep)` on character lists, with a fuel bound
(the fuel `s.length + 1` always suffices for a nonempty separator). -/
def splitChars (sep : List Char) : Nat → List Char → List Char → List (List Char)
  | 0, acc, _ => [acc.reverse]
  | fuel + 1, acc, s =>
    if isPrefixChars sep s && !sep.isEmpty then
      acc.reverse :: splitChars sep fuel [] (s.drop sep.length)
    else
      match s with
      | [] => [acc.reverse]
      | c :: rest => splitChars sep fuel (c :: acc) rest

/-- Python `s.split(sep)` for a nonempty separator. -/
def pySplit (s sep : String) : List String :=
  (splitChars sep.data (s.data.length + 1) [] s.data).map String.mk

/-- Python `s.strip()`: drop leading and trailing whitespace. -/
def pyStrip (s : String) : String :=
  String.mk (((s.data.dropWhile Char.isWhitespace).reverse.dropWhile Char.isWhitespace).reverse)

/-- Python `s.replace(pat, rep)` for a nonempty pattern
(`rep.join(s.split(pat))`). -/
def pyReplace (s pat rep : String) : String :=
  String.mk (List.intercalate rep.data (splitChars pat.data (s.data.length + 1) [] s.data))

/-- Python `pat in s` substring test (for a nonempty pattern). -/
def strContains (s pat : String) : Bool :=
  (pySplit s pat).length != 1

/-- One hexadecimal digit, uppercase, as used by `urllib.parse.quote_plus`. -/
def hexDigit (n : Nat) : Char :=
  if n < 10 then Char.ofNat (48 + n) else Char.ofNat (55 + n)

/-- Percent-encode one UTF-8 byte as `urllib.parse.quote_plus` does:
letters, digits and `_ . - ~` pass through, a space becomes `+`, everything
else becomes `%XX`. -/
def quoteByte (n : Nat) : String :=
  let c := Char.ofNat n
  if c.isAlphanum || c == '_' || c == '.' || c == '-' || c == '~' then
    String.singleton c
  else if c == ' ' then "+"
  else String.mk ['%', hexDigit (n / 16), hexDigit (n % 16)]

/-- The UTF-8 encoding of one character, as a list of byte values. -/
def utf8Bytes (c : Char) : List Nat :=
  let n := c.toNat
  if n < 128 then [n]
  else if n < 2048 then [192 + n / 64, 128 + n % 64]
  else if n < 65536 then [224 + n / 4096, 128 + (n / 64) % 64, 128 + n % 64]
  else [240 + n / 262144, 128 + (n / 4096) % 64, 128 + (n / 64) % 64, 128 + n % 64]

/-- Model of `urllib.parse.quote_plus` (UTF-8 bytes, then per-byte). -/
def quote_plus (s : String) : String :=
  String.join (((s.data.map utf8Bytes).flatten).map quoteByte)

/-- One CSV row as produced by `csv.DictReader`: `row.get("Title")` and
`row.get("URL")` (a field may be absent when the header lacks the column). -/
structure Row where
  title : Option String
  url : Option String

/-- The external Places web service: parsed JSON response bodies of the
Find Place from Text endpoint (key, input text) and of the Place Details
endpoint (key, place_id value). -/
structure PlacesApi where
  findPlace : String → String → Json
  placeDetails : String → Json → Json

/-- Observable effects of `main`, in program order. -/
inductive Event where
  | askInput
  | askOutput
  | readApiKey
  | findReq (query : String)
  | detailsReq
  | writeOutput (path : String) (doc : Json)

/-- Is this event an external API request (`requests.get` on either
endpoint)? -/
def Event.isApiReq : Event → Bool
  | .findReq _ => true
  | .detailsReq => true
  | _ => false

/-- Is this event the write of the output file? -/
def Event.isWrite : Event → Bool
  | .writeOutput _ _ => true
  | _ => false

/-- Is this event the read of the API key from the environment? -/
def Event.isReadKey : Event → Bool
  | .readApiKey => true
  | _ => false

/-- Constant `API_REQUEST_LIMIT = 1000`: max API requests per run
(Find Place + Place Details). -/
def API_REQUEST_LIMIT : Nat := 1000

/-- The decoded place name extracted from a Google Maps `/place/` URL in
`find_place_id` (`None` when the URL is empty, has no `/place/` segment, or
the extracted part is empty). -/
def fp_name_from_url (maps_url : String) : Option String :=
  if maps_url != "" && strContains maps_url "/place/" then
    let path := (pySplit maps_url "?").headD ""
    let part := ((pySplit ((pySplit path "/place/").getLastD "") "/data=").headD "")
    if part != "" then some (pyStrip (pyReplace part "+" " ")) else none
  else none

/-- Computation of `query = (name_from_url or title or "").strip()` in `find_place_id`. -/
def fp_query (title maps_url : String) : String :=
  pyStrip (match fp_name_from_url maps_url with
           | some s => if s != "" then s else title
           | none => title)

/-- The HTTP requests issued by one invocation of `find_place_id`: none when
the query is empty (the function returns early), otherwise one Find Place
request. -/
def fp_events (title maps_url : String) : List Event :=
  if fp_query title maps_url == "" then [] else [Event.findReq (fp_query title maps_url)]

/-- Model of `find_place_id(api_key, title, maps_url)`: Find Place from Text, returning
`candidates[0].get("place_id")` on status `OK` with truthy candidates, else
`None`. -/
def find_place_id (api : PlacesApi) (api_key title maps_url : String) : Option Json :=
  let query := fp_query title maps_url
  if query == "" then none
  else
    let data := api.findPlace api_key query
    if !(isStrVal (jget data "status") "OK") || !(truthyOpt (jget data "candidates")) then
      none
    else
      match jget data "candidates" with
      | some (.arr (c :: _)) => jget c "place_id"
      | _ => none

/-- The enrichment result built by `get_place_details` on success
(the Python dict with keys lat, lng, address, name, country_code). -/
structure Details where
  lat : Json
  lng : Json
  address : Json
  name : Json
  country_code : Option Json

/-- Response `data` in `get_place_details`: the parsed Place Details response. -/
def gpd_data (api : PlacesApi) (api_key : String) (place_id : Json) : Json :=
  api.placeDetails api_key place_id

/-- Value `result` in `get_place_details`: the response field `result`, or an empty dict when absent. -/
def gpd_result (api : PlacesApi) (api_key : String) (place_id : Json) : Json :=
  match jget (gpd_data api api_key place_id) "result" with
  | some v => v
  | none => .obj []

/-- Value `geom = result.get("geometry")` in `get_place_details`. -/
def gpd_geom (api : PlacesApi) (api_key : String) (place_id : Json) : Option Json :=
  jget (gpd_result api api_key place_id) "geometry"

/-- Value `geom["location"]` in `get_place_details` (only reached when the key is
present). -/
def gpd_loc (api : PlacesApi) (api_key : String) (place_id : Json) : Json :=
  (jget ((gpd_geom api api_key place_id).getD .null) "location").getD .null

/-- Value `geom["location"].get("lat")`. -/
def gpd_lat (api : PlacesApi) (api_key : String) (place_id : Json) : Option Json :=
  jget (gpd_loc api api_key place_id) "lat"

/-- Value `geom["location"].get("lng")`. -/
def gpd_lng (api : PlacesApi) (api_key : String) (place_id : Json) : Option Json :=
  jget (gpd_loc api api_key place_id) "lng"

/-- The `for comp in ...` loop of `get_place_details`: first component whose
`types` contains `"country"` yields `comp.get("short_name")` and breaks. -/
def findCountry : List Json → Option Json
  | [] => none
  | comp :: rest =>
    if jContainsStr (pyOrJ (jget comp "types") (.arr [])) "country" then
      jget comp "short_name"
    else
      findCountry rest

/-- Value `result.get("address_components") or []`, iterated as a list. -/
def gpd_components (api : PlacesApi) (api_key : String) (place_id : Json) : List Json :=
  match pyOrJ (jget (gpd_result api api_key place_id) "address_components") (.arr []) with
  | .arr xs => xs
  | _ => []

/-- Model of `get_place_details(api_key, place_id)`: geometry (lat/lng), formatted
address, name and country code for a place_id, or `None` when the status is
not `OK`, the geometry or its location is missing, or lat/lng is missing. -/
def get_place_details (api : PlacesApi) (api_key : String) (place_id : Json) : Option Details :=
  if !(isStrVal (jget (gpd_data api api_key place_id) "status") "OK") then none
  else if !(truthyOpt (gpd_geom api api_key place_id))
          || !(jHasKeyOpt (gpd_geom api api_key place_id) "location") then none
  else if isNoneLike (gpd_lat api api_key place_id)
          || isNoneLike (gpd_lng api api_key place_id) then none
  else some
    { lat := (gpd_lat api api_key place_id).getD .null
      lng := (gpd_lng api api_key place_id).getD .null
      address := pyOrJ (jget (gpd_result api api_key place_id) "formatted_address") (.str "")
      name := pyOrJ (jget (gpd_result api api_key place_id) "name") (.str "")
      country_code := findCountry (gpd_components api api_key place_id) }

/-- Model of `build_feature(row, details, now_iso)`: one GeoJSON Feature for a row,
with real coordinates and address when `details` is present, and the `[0,0]`
placeholder with a Comment otherwise. -/
def build_feature (row : Row) (details : Option Details) (now_iso : String) : Json :=
  let title := pyStrip (row.title.getD "")
  let url := pyStrip (row.url.getD "")
  let cp : Json × List (String × Json) :=
    match details with
    | some d =>
      (.arr [d.lng, d.lat],
       [("date", .str now_iso),
        ("google_maps_url",
          if url != "" then .str url
          else .str ("http://maps.google.com/?q=" ++ quote_plus title)),
        ("name", if truthy d.name then d.name else .str title),
        ("location", .obj (("address", d.address) ::
          (match d.country_code with
           | some cc => if truthy cc then [("country_code", cc)] else []
           | none => [])))])
    | none =>
      (.arr [.num 0, .num 0],
       ("date", .str now_iso) ::
       ("google_maps_url", .str url) ::
       ("Comment", .str "No location information is available for this saved place") ::
       (if title != "" then [("name", Json.str title)] else []))
  .obj [("type", .str "Feature"),
        ("geometry", .obj [("type", .str "Point"), ("coordinates", cp.1)]),
        ("properties", .obj cp.2)]

/-- The row filter at CSV read time in `main`: a row is kept unless both its
stripped Title and stripped URL are empty. -/
def keepRow (row : Row) : Bool :=
  !((pyStrip (row.title.getD "") == "") && (pyStrip (row.url.getD "") == ""))

/-- The `rows` list of `main`: the CSV data rows with blank rows dropped. -/
def readRows (raw : List Row) : List Row :=
  raw.filter keepRow

/-- Result of the per-row lookup section of the enrichment loop in `main`
(the code from `details = None` through the budget-guarded calls): the
details obtained, the updated `request_count`, whether the limit flag was
raised in this iteration, and the requests issued. -/
structure RowStep where
  details : Option Details
  request_count : Nat
  limit_reached : Bool
  events : List Event

/-- One iteration's lookup logic of the enrichment loop in `main`, starting
from `request_count = rc`. -/
def lookupRow (api : PlacesApi) (api_key : String) (rc : Nat) (row : Row) : RowStep :=
  let title := pyStrip (row.title.getD "")
  let url := pyStrip (row.url.getD "")
  if rc < API_REQUEST_LIMIT then
    let place_id := find_place_id api api_key title url
    if truthyOpt place_id && decide (rc + 1 < API_REQUEST_LIMIT) then
      { details := get_place_details api api_key (place_id.getD .null)
        request_count := rc + 2
        limit_reached := false
        events := fp_events title url ++ [Event.detailsReq] }
    else if truthyOpt place_id then
      { details := none, request_count := rc + 1, limit_reached := true
        events := fp_events title url }
    else
      { details := none, request_count := rc + 1, limit_reached := false
        events := fp_events title url }
  else
    { details := none, request_count := rc, limit_reached := true, events := [] }

/-- Accumulated state of the enrichment loop in `main`. -/
structure LoopState where
  features : List Json
  request_count : Nat
  limit_reached : Bool
  events : List Event

/-- One full iteration of the enrichment loop: look the row up, then
`features.append(build_feature(row, details, now_iso))`. -/
def stepRow (api : PlacesApi) (api_key now_iso : String) (st : LoopState) (row : Row) : LoopState :=
  let r := lookupRow api api_key st.request_count row
  { features := st.features ++ [build_feature row r.details now_iso]
    request_count := r.request_count
    limit_reached := st.limit_reached || r.limit_reached
    events := st.events ++ r.events }

/-- The whole enrichment loop of `main`, from the initial state
(`features = []`, `request_count = 0`, `limit_reached = False`). -/
def runLoop (api : PlacesApi) (api_key now_iso : String) (rows : List Row) : LoopState :=
  rows.foldl (stepRow api api_key now_iso) ⟨[], 0, false, []⟩

/-- Document `fc` of `main`: type FeatureCollection plus the features array. -/
def fcDoc (features : List Json) : Json :=
  .obj [("type", .str "FeatureCollection"), ("features", .arr features)]

/-- The document `main` writes to the output path, as a function of the raw
CSV data rows. -/
def mainDoc (api : PlacesApi) (api_key now_iso : String) (raw : List Row) : Json :=
  fcDoc (runLoop api api_key now_iso (readRows raw)).features

/-- The `"features"` array of an output document, as a list. -/
def jfeatures (doc : Json) : List Json :=
  match jget doc "features" with
  | some (.arr xs) => xs
  | _ => []

/-- Model of `get_api_key()`: `GOOGLE_PLACES_API_KEY` or `GOOGLE_MAPS_API_KEY` from
the environment; `none` models the `SystemExit` raised when neither is set
to a nonempty string. -/
def get_api_key (env : String → Option String) : Option String :=
  let key :=
    match env "GOOGLE_PLACES_API_KEY" with
    | some s => if s != "" then some s else env "GOOGLE_MAPS_API_KEY"
    | none => env "GOOGLE_MAPS_API_KEY"
  match key with
  | some s => if s != "" then some s else none
  | none => none

/-- The ambient world `main` runs in: the two dialog outcomes (`none` =
cancelled), the environment, the parsed content of the chosen CSV, the
external API, and the timestamp taken at `datetime.now`. -/
structure World where
  inputDialog : Option String
  outputDialog : Option String
  env : String → Option String
  readCsv : String → List Row
  api : PlacesApi
  now_iso : String

/-- The effect trace of `main`: ask for the input file, ask for the output
file, read the API key, issue the loop's requests, write the output.  Each
early `return` (cancelled dialog) and the `SystemExit` of `get_api_key` cut
the trace short. -/
def mainTrace (w : World) : List Event :=
  Event.askInput ::
    match w.inputDialog with
    | none => []
    | some csv_path =>
      Event.askOutput ::
        match w.outputDialog with
        | none => []
        | some geojson_path =>
          Event.readApiKey ::
            match get_api_key w.env with
            | none => []
            | some api_key =>
              let st := runLoop w.api api_key w.now_iso (readRows (w.readCsv csv_path))
              st.events ++ [Event.writeOutput geojson_path (fcDoc st.features)]

/-! Concrete fixtures used by witnesses and counterexamples. -/

/-- A service whose responses are always `null` (every lookup fails). -/
def apiNull : PlacesApi :=
  ⟨fun _ _ => .null, fun _ _ => .null⟩

/-- A service that always finds a place and returns full details for it. -/
def apiOk : PlacesApi where
  findPlace := fun _ _ =>
    .obj [("status", .str "OK"),
          ("candidates", .arr [.obj [("place_id", .str "PID")]])]
  placeDetails := fun _ _ =>
    .obj [("status", .str "OK"),
          ("result", .obj
            [("geometry", .obj [("location", .obj [("lat", .num 1), ("lng", .num 2)])]),
             ("formatted_address", .str "Addr 1"),
             ("name", .str "N")])]

/-- A service whose Place Details responses carry a failing status. -/
def apiBadStatus : PlacesApi :=
  ⟨fun _ _ => .null, fun _ _ => .obj [("status", .str "ZERO_RESULTS")]⟩

/-- The details record `get_place_details` extracts from `apiOk`. -/
def dOk : Details :=
  { lat := .num 1, lng := .num 2, address := .str "Addr 1", name := .str "N"
    country_code := none }

/-- A row with a title and no URL. -/
def rowA : Row := ⟨some "a", none⟩

/-- A fully blank row (skipped at CSV read time). -/
def rowBlank : Row := ⟨some "", some ""⟩

/-- A Place Details response with status OK but no `lat` in the location. -/
def apiNoLat : PlacesApi :=
  ⟨fun _ _ => .null,
   fun _ _ => .obj [("status", .str "OK"),
                    ("result", .obj [("geometry", .obj [("location", .obj [("lng", .num 2)])])])]⟩

/-- A world where the input-file dialog is cancelled. -/
def w0 : World := ⟨none, none, fun _ => none, fun _ => [], apiNull, "t"⟩

/-- A world where the output-file dialog is cancelled. -/
def w1 : World := ⟨some "in.csv", none, fun _ => none, fun _ => [], apiNull, "t"⟩

/-- A world where both dialogs succeed (and the environment has no key). -/
def w2 : World := ⟨some "in.csv", some "out.json", fun _ => none, fun _ => [], apiNull, "t"⟩

/-! ### Helper lemmas -/

theorem lookupRow_request_count_le (api : PlacesApi) (api_key : String) (rc : Nat) (row : Row)
    (h : rc ≤ API_REQUEST_LIMIT) :
    (lookupRow api api_key rc row).request_count ≤ API_REQUEST_LIMIT := by
  simp only [lookupRow]
  split
  · split
    · next hcond =>
      simp only [Bool.and_eq_true, decide_eq_true_eq] at hcond
      show rc + 2 ≤ API_REQUEST_LIMIT
      omega
    · split
      · next hlt _ =>
        show rc + 1 ≤ API_REQUEST_LIMIT
        omega
      · next hlt _ =>
        show rc + 1 ≤ API_REQUEST_LIMIT
        omega
  · exact h

theorem foldl_request_count_le (api : PlacesApi) (api_key now_iso : String) :
    ∀ (rows : List Row) (st : LoopState), st.request_count ≤ API_REQUEST_LIMIT →
      (rows.foldl (stepRow api api_key now_iso) st).request_count ≤ API_REQUEST_LIMIT := by
  intro rows
  induction rows with
  | nil => intro st h; simpa using h
  | cons row rest ih =>
    intro st h
    simp only [List.foldl_cons]
    refine ih _ ?_
    show (lookupRow api api_key st.request_count row).request_count ≤ API_REQUEST_LIMIT
    exact lookupRow_request_count_le api api_key st.request_count row h

theorem foldl_features_spec (api : PlacesApi) (api_key now_iso : String) :
    ∀ (rows : List Row) (st : LoopState),
      ∃ L : List Json,
        (rows.foldl (stepRow api api_key now_iso) st).features = st.features ++ L ∧
        L.length = rows.length ∧
        ∀ (k : Nat) (r : Row), rows[k]? = some r →
          ∃ d, L[k]? = some (build_feature r d now_iso) := by
  intro rows
  induction rows with
  | nil =>
    intro st
    exact ⟨[], by simp, by simp, by intro k r hk; simp at hk⟩
  | cons row rest ih =>
    intro st
    obtain ⟨L, hL, hlen, hget⟩ := ih (stepRow api api_key now_iso st row)
    refine ⟨build_feature row (lookupRow api api_key st.request_count row).details now_iso :: L,
      ?_, ?_, ?_⟩
    · have hstep : (stepRow api api_key now_iso st row).features =
        st.features ++ [build_feature row (lookupRow api api_key st.request_count row).details now_iso] := rfl
      rw [List.foldl_cons, hL, hstep, List.append_assoc]
      simp
    · simp [hlen]
    · intro k r hk
      cases k with
      | zero =>
        simp only [List.getElem?_cons_zero, Option.some.injEq] at hk
        subst hk
        exact ⟨(lookupRow api api_key st.request_count row).details, by simp⟩
      | succ k =>
        simp only [List.getElem?_cons_succ] at hk ⊢
        exact hget k r hk

theorem jfeatures_fcDoc (features : List Json) : jfeatures (fcDoc features) = features := rfl

theorem some_getD_of_not_noneLike (o : Option Json) (h : isNoneLike o = false) :
    some (o.getD .null) = o := by
  cases o with
  | none => simp [isNoneLike] at h
  | some v => rfl

theorem build_feature_date (row : Row) (d : Option Details) (now_iso : String) :
    jpath (build_feature row d now_iso) ["properties", "date"] = some (.str now_iso) := by
  cases d <;> rfl

theorem foldl_features_date (api : PlacesApi) (api_key now_iso : String) :
    ∀ (rows : List Row) (st : LoopState),
      (∀ f ∈ st.features, jpath f ["properties", "date"] = some (.str now_iso)) →
      ∀ f ∈ (rows.foldl (stepRow api api_key now_iso) st).features,
        jpath f ["properties", "date"] = some (.str now_iso) := by
  intro rows
  induction rows with
  | nil => intro st h; simpa using h
  | cons row rest ih =>
    intro st h
    simp only [List.foldl_cons]
    refine ih _ ?_
    intro f hf
    have hstep : (stepRow api api_key now_iso st row).features =
      st.features ++ [build_feature row (lookupRow api api_key st.request_count row).details now_iso] := rfl
    rw [hstep] at hf
    rcases List.mem_append.mp hf with hl | hr
    · exact h f hl
    · rcases List.mem_singleton.mp hr with rfl
      exact build_feature_date row _ now_iso

/-! ### The claims -/

/-- Claim C1: for every run and input CSV, the total number of API requests
as counted by `request_count` (Find Place + Place Details) never exceeds
`API_REQUEST_LIMIT = 1000`; the bound holds after every iteration of the
enrichment loop (every prefix of the row list). -/
theorem C1_request_count_never_exceeds_limit (api : PlacesApi) (api_key now_iso : String)
    (rows : List Row) (n : Nat) :
    (runLoop api api_key now_iso (rows.take n)).request_count ≤ API_REQUEST_LIMIT :=
  foldl_request_count_le api api_key now_iso (rows.take n) ⟨[], 0, false, []⟩ (Nat.zero_le _)

/-- Claim C2, counterexample: a CSV data row whose Title and URL are both
blank is dropped at read time, so the output has zero features for a
one-row input — not exactly one Feature per input row. -/
theorem C2_counterexample :
    (jfeatures (mainDoc apiNull "k" "t" [rowBlank])).length = 0 ∧ [rowBlank].length = 1 :=
  ⟨rfl, rfl⟩

/-- Claim C2 (amended): the document written to the output path is a JSON
object with type FeatureCollection whose features array contains exactly one
Feature per retained input row (rows with a nonempty stripped Title or URL;
fully blank rows are skipped), in the same order as the rows appear in the
CSV. -/
theorem C2_one_feature_per_kept_row (api : PlacesApi) (api_key now_iso : String)
    (raw : List Row) :
    jget (mainDoc api api_key now_iso raw) "type" = some (.str "FeatureCollection") ∧
    (jfeatures (mainDoc api api_key now_iso raw)).length = (readRows raw).length ∧
    ∀ (k : Nat) (r : Row), (readRows raw)[k]? = some r →
      ∃ d, (jfeatures (mainDoc api api_key now_iso raw))[k]? =
        some (build_feature r d now_iso) := by
  obtain ⟨L, hL, hlen, hget⟩ :=
    foldl_features_spec api api_key now_iso (readRows raw) ⟨[], 0, false, []⟩
  have hfeats : jfeatures (mainDoc api api_key now_iso raw) = L := by
    show ((readRows raw).foldl (stepRow api api_key now_iso) ⟨[], 0, false, []⟩).features = L
    rw [hL]
    simp
  refine ⟨rfl, ?_, ?_⟩
  · rw [hfeats, hlen]
  · intro k r hk
    obtain ⟨d, hd⟩ := hget k r hk
    exact ⟨d, by rw [hfeats]; exact hd⟩

theorem C2_witness :
    ∃ d, (jfeatures (mainDoc apiNull "k" "t" [rowA]))[0]? = some (build_feature rowA d "t") :=
  (C2_one_feature_per_kept_row apiNull "k" "t" [rowA]).2.2 0 rowA rfl

/-- Claim C3: while the budget allows (`request_count < API_REQUEST_LIMIT`),
the lookup is two-step: `find_place_id` first, and `get_place_details` only
when the first step returned a truthy place_id and the budget still permits
a second request; when the budget forbids the second step the row ends up
with no location data (`details = None`). -/
theorem C3_two_step_lookup (api : PlacesApi) (api_key : String) (rc : Nat) (row : Row)
    (pid : Option Json) (hrc : rc < API_REQUEST_LIMIT)
    (hpid : pid = find_place_id api api_key (pyStrip (row.title.getD ""))
      (pyStrip (row.url.getD ""))) :
    ((lookupRow api api_key rc row).details ≠ none →
       truthyOpt pid = true ∧ rc + 1 < API_REQUEST_LIMIT ∧
       (lookupRow api api_key rc row).details =
         get_place_details api api_key (pid.getD .null)) ∧
    (truthyOpt pid = true → rc + 1 < API_REQUEST_LIMIT →
       (lookupRow api api_key rc row).details =
         get_place_details api api_key (pid.getD .null) ∧
       (lookupRow api api_key rc row).request_count = rc + 2 ∧
       (lookupRow api api_key rc row).events =
         fp_events (pyStrip (row.title.getD "")) (pyStrip (row.url.getD "")) ++
           [Event.detailsReq]) ∧
    (truthyOpt pid = true → ¬ rc + 1 < API_REQUEST_LIMIT →
       (lookupRow api api_key rc row).details = none ∧
       (lookupRow api api_key rc row).limit_reached = true ∧
       (lookupRow api api_key rc row).request_count = rc + 1) ∧
    (truthyOpt pid = false →
       (lookupRow api api_key rc row).details = none ∧
       (lookupRow api api_key rc row).request_count = rc + 1) := by
  subst hpid
  by_cases h1 : truthyOpt (find_place_id api api_key (pyStrip (row.title.getD ""))
    (pyStrip (row.url.getD ""))) = true
  · by_cases h2 : rc + 1 < API_REQUEST_LIMIT
    · simp [lookupRow, hrc, h1, h2]
    · simp [lookupRow, hrc, h1, h2]
  · simp [lookupRow, hrc, h1, Bool.not_eq_true _ ▸ h1]

theorem C3_witness :
    ((lookupRow apiOk "k" 0 rowA).details =
      get_place_details apiOk "k"
        ((find_place_id apiOk "k" (pyStrip (rowA.title.getD ""))
          (pyStrip (rowA.url.getD ""))).getD .null)) ∧
    ((lookupRow apiOk "k" 999 rowA).details = none ∧
      (lookupRow apiOk "k" 999 rowA).limit_reached = true) :=
  ⟨((C3_two_step_lookup apiOk "k" 0 rowA _ (by decide) rfl).2.1 (by decide) (by decide)).1,
   ⟨((C3_two_step_lookup apiOk "k" 999 rowA _ (by decide) rfl).2.2.1 (by decide) (by decide)).1,
    ((C3_two_step_lookup apiOk "k" 999 rowA _ (by decide) rfl).2.2.1 (by decide) (by decide)).2.1⟩⟩

/-- Claim C4: a row whose lookup failed (`details = None`, including rows
skipped because the budget is exhausted) gets a Feature with coordinates
`[0, 0]` and a properties field Comment saying no location information is
available for this saved place; a budget-exhausted row issues no request
at all (no other recovery). -/
theorem C4_placeholder_feature (row : Row) (now_iso : String) (api : PlacesApi)
    (api_key : String) (rc : Nat) :
    jpath (build_feature row none now_iso) ["geometry", "coordinates"] =
      some (.arr [.num 0, .num 0]) ∧
    jpath (build_feature row none now_iso) ["properties", "Comment"] =
      some (.str "No location information is available for this saved place") ∧
    (API_REQUEST_LIMIT ≤ rc →
      (lookupRow api api_key rc row).details = none ∧
      (lookupRow api api_key rc row).events = []) := by
  refine ⟨rfl, rfl, fun h => ?_⟩
  have hnot : ¬ rc < API_REQUEST_LIMIT := Nat.not_lt.mpr h
  simp [lookupRow, hnot]

theorem C4_witness :
    (lookupRow apiOk "k" 1000 rowA).details = none ∧
    (lookupRow apiOk "k" 1000 rowA).events = [] :=
  (C4_placeholder_feature rowA "t" apiOk "k" 1000).2.2 (by decide)

/-- Claim C5: `get_place_details` returns None whenever the response status
is not OK, or the result lacks a (truthy) geometry with a location key, or
the lat or lng of that location is missing (or null); each such case is a
lookup failure, never a partial result. -/
theorem C5_details_failure_modes (api : PlacesApi) (api_key : String) (place_id : Json) :
    (isStrVal (jget (gpd_data api api_key place_id) "status") "OK" = false →
       get_place_details api api_key place_id = none) ∧
    (truthyOpt (gpd_geom api api_key place_id) = false →
       get_place_details api api_key place_id = none) ∧
    (jHasKeyOpt (gpd_geom api api_key place_id) "location" = false →
       get_place_details api api_key place_id = none) ∧
    (isNoneLike (gpd_lat api api_key place_id) = true →
       get_place_details api api_key place_id = none) ∧
    (isNoneLike (gpd_lng api api_key place_id) = true →
       get_place_details api api_key place_id = none) := by
  refine ⟨?_, ?_, ?_, ?_, ?_⟩ <;> intro h <;> simp [get_place_details, h]

theorem C5_witness :
    get_place_details apiBadStatus "k" .null = none ∧
    get_place_details apiNoLat "k" .null = none :=
  ⟨(C5_details_failure_modes apiBadStatus "k" .null).1 rfl,
   (C5_details_failure_modes apiNoLat "k" .null).2.2.2.1 rfl⟩

/-- Claim C6: when the two-step lookup succeeds, the Feature geometry is a
Point whose coordinates are the lat/lng returned by Place Details, and the
properties carry the formatted address returned by the service under
properties.location.address. -/
theorem C6_located_feature (api : PlacesApi) (api_key : String) (place_id : Json)
    (d : Details) (row : Row) (now_iso : String)
    (h : get_place_details api api_key place_id = some d) :
    jpath (build_feature row (some d) now_iso) ["geometry", "type"] = some (.str "Point") ∧
    jpath (build_feature row (some d) now_iso) ["geometry", "coordinates"] =
      some (.arr [d.lng, d.lat]) ∧
    jpath (build_feature row (some d) now_iso) ["properties", "location", "address"] =
      some d.address ∧
    some d.lat = gpd_lat api api_key place_id ∧
    some d.lng = gpd_lng api api_key place_id ∧
    d.address = pyOrJ (jget (gpd_result api api_key place_id) "formatted_address") (.str "") := by
  refine ⟨rfl, rfl, rfl, ?_⟩
  unfold get_place_details at h
  split at h
  · exact absurd h (by simp)
  · split at h
    · exact absurd h (by simp)
    · split at h
      · exact absurd h (by simp)
      · next h3 =>
        simp only [Bool.or_eq_true, not_or, Bool.not_eq_true] at h3
        have hd := (Option.some.inj h).symm
        subst hd
        exact ⟨some_getD_of_not_noneLike _ h3.1, some_getD_of_not_noneLike _ h3.2, rfl⟩

theorem C6_witness :
    jpath (build_feature rowA (some dOk) "t") ["geometry", "coordinates"] =
      some (.arr [.num 2, .num 1]) ∧
    jpath (build_feature rowA (some dOk) "t") ["properties", "location", "address"] =
      some (.str "Addr 1") :=
  ⟨(C6_located_feature apiOk "k" (.str "PID") dOk rowA "t" rfl).2.1,
   (C6_located_feature apiOk "k" (.str "PID") dOk rowA "t" rfl).2.2.1⟩

/-- Claim C7: `main` asks for the input file, then for the output path, and
only then reads the API key; if either dialog is cancelled, the run stops
before reading the key, issues no API request, and writes no output file. -/
theorem C7_dialog_order_and_early_exit (w : World) :
    (mainTrace w).head? = some Event.askInput ∧
    (w.inputDialog = none → mainTrace w = [Event.askInput]) ∧
    (∀ p, w.inputDialog = some p → w.outputDialog = none →
       mainTrace w = [Event.askInput, Event.askOutput]) ∧
    (∀ p q, w.inputDialog = some p → w.outputDialog = some q →
       (mainTrace w).take 3 = [Event.askInput, Event.askOutput, Event.readApiKey]) ∧
    ((w.inputDialog = none ∨ w.outputDialog = none) →
       (mainTrace w).filter Event.isReadKey = [] ∧
       (mainTrace w).filter Event.isApiReq = [] ∧
       (mainTrace w).filter Event.isWrite = []) := by
  refine ⟨rfl, ?_, ?_, ?_, ?_⟩
  · intro h
    simp [mainTrace, h]
  · intro p hp hq
    simp [mainTrace, hp, hq]
  · intro p q hp hq
    cases hk : get_api_key w.env <;>
      simp [mainTrace, hp, hq, hk]
  · intro h
    rcases h with h | h
    · simp [mainTrace, h, Event.isReadKey, Event.isApiReq, Event.isWrite]
    · cases hin : w.inputDialog <;>
        simp [mainTrace, h, hin, Event.isReadKey, Event.isApiReq, Event.isWrite]

theorem C7_witness :
    mainTrace w0 = [Event.askInput] ∧
    mainTrace w1 = [Event.askInput, Event.askOutput] ∧
    (mainTrace w2).take 3 = [Event.askInput, Event.askOutput, Event.readApiKey] ∧
    (mainTrace w1).filter Event.isApiReq = [] ∧
    (mainTrace w1).filter Event.isWrite = [] :=
  ⟨(C7_dialog_order_and_early_exit w0).2.1 rfl,
   (C7_dialog_order_and_early_exit w1).2.2.1 "in.csv" rfl rfl,
   (C7_dialog_order_and_early_exit w2).2.2.2.1 "in.csv" "out.json" rfl rfl,
   ((C7_dialog_order_and_early_exit w1).2.2.2.2 (Or.inr rfl)).2.1,
   ((C7_dialog_order_and_early_exit w1).2.2.2.2 (Or.inr rfl)).2.2⟩

/-- Claim C8: for every located row the Feature coordinates are in GeoJSON
axis order: element 0 is the lng value and element 1 is the lat value
returned by Place Details. -/
theorem C8_coordinate_order (row : Row) (d : Details) (now_iso : String) :
    ∃ xs, jpath (build_feature row (some d) now_iso) ["geometry", "coordinates"] =
      some (.arr xs) ∧ xs[0]? = some d.lng ∧ xs[1]? = some d.lat :=
  ⟨[d.lng, d.lat], rfl, rfl, rfl⟩

/-- Claim C9: within one run every emitted Feature carries the same date
property: the timestamp `now_iso` computed once before the loop. -/
theorem C9_uniform_date (api : PlacesApi) (api_key now_iso : String) (rows : List Row)
    (f : Json) (hf : f ∈ (runLoop api api_key now_iso rows).features) :
    jpath f ["properties", "date"] = some (.str now_iso) :=
  foldl_features_date api api_key now_iso rows ⟨[], 0, false, []⟩ (by simp) f hf

theorem C9_witness :
    jpath (build_feature rowA none "t") ["properties", "date"] = some (.str "t") :=
  C9_uniform_date apiNull "k" "t" [rowA] (build_feature rowA none "t") (by
    have h : (runLoop apiNull "k" "t" [rowA]).features = [build_feature rowA none "t"] := rfl
    rw [h]
    exact List.mem_singleton.mpr rfl)

end GMapsGeo
